import Mathlib

/-!
Verification of the video-converter service against its specification.

The Go source is shallowly embedded: pure functions become Lean functions,
stateful activities become explicit state-passing functions, Go `int`
arithmetic is modelled with `Nat`/`Int` (all values involved stay far below
2^63, so no wrap-around occurs), and Go `float64` arithmetic is modelled
with exact rationals (`ℚ`); where a claim depends on a float computation we
check that the concrete values involved make the rational model exact.

The file has two parts: first the definitions embedding the source, then
the theorems settling the claims.
-/

namespace Converter

/-! ## Domain model: qualities and presets (internal/domain/profile.go) -/

inductive Quality where
  | q480p | q576p | q720p | q1080p | q1440p | q2160p | origin
  deriving DecidableEq, Repr

structure QualityConfig where
  width : ℤ
  height : ℤ
  videoBitrate : String
  maxBitrate : String
  bufSize : String
  audioBitrate : String
  deriving DecidableEq, Repr

/-- `Quality.Params` from profile.go: the tabular presets; unknown keys
(`origin`) yield the zero `QualityConfig`. -/
def Quality.Params : Quality → QualityConfig
  | .q480p  => ⟨854, 480, "1500k", "2000k", "3000k", "128k"⟩
  | .q576p  => ⟨1024, 576, "2000k", "2500k", "4000k", "128k"⟩
  | .q720p  => ⟨1280, 720, "3000k", "4000k", "6000k", "192k"⟩
  | .q1080p => ⟨1920, 1080, "6000k", "8000k", "12000k", "256k"⟩
  | .q1440p => ⟨2560, 1440, "10000k", "12000k", "20000k", "256k"⟩
  | .q2160p => ⟨3840, 2160, "15000k", "20000k", "30000k", "320k"⟩
  | .origin => ⟨0, 0, "", "", "", ""⟩

/-- The filter predicate of `FilterQualitiesForResolution` (cmd/api/main.go):
include a quality if it is `origin` or the source is tall enough. -/
def keepQuality (sourceHeight : ℤ) (q : Quality) : Bool :=
  q == Quality.origin || decide (sourceHeight ≥ (Quality.Params q).height)

/-- `FilterQualitiesForResolution` from cmd/api/main.go: drop qualities taller
than the source; if everything was dropped and the request was non-empty,
fall back to `[origin]`. -/
def FilterQualitiesForResolution (qualities : List Quality) (sourceHeight : ℤ) :
    List Quality :=
  let filtered := qualities.filter (keepQuality sourceHeight)
  if filtered.isEmpty && !qualities.isEmpty then [Quality.origin] else filtered

/-! ## Codecs and tiers (internal/domain/codec.go) -/

inductive VideoCodec where
  | h264 | h265
  deriving DecidableEq, Repr

inductive ContainerFormat where
  | ts | fmp4
  deriving DecidableEq, Repr

inductive EncodingTier where
  | legacy | modern
  deriving DecidableEq, Repr

structure TierConfig where
  tier : EncodingTier
  videoCodec : VideoCodec
  container : ContainerFormat
  videoCodecString : String
  audioCodecString : String
  deriving DecidableEq, Repr

/-- `GetTierConfig` from codec.go. -/
def GetTierConfig : EncodingTier → TierConfig
  | .legacy => ⟨.legacy, .h264, .ts, "avc1.640028", "mp4a.40.2"⟩
  | .modern => ⟨.modern, .h265, .fmp4, "hvc1.1.6.L120.90", "mp4a.40.2"⟩

/-- `VideoCodec.BitrateMultiplier` from codec.go, as an exact rational
(H.265 runs at 0.6 of the H.264 bitrate). -/
def VideoCodec.BitrateMultiplier : VideoCodec → ℚ
  | .h264 => 1
  | .h265 => 3 / 5

/-! ## Bitrate parsing and scaling (internal/ffmpeg/builder.go) -/

/-- Suffix test on strings, computed structurally over the character lists
(same result as Go's `strings.HasSuffix` and Lean's `String.endsWith`). -/
def strEndsWith (s suffix' : String) : Bool :=
  suffix'.data.isSuffixOf s.data

/-- Go's `strings.TrimSuffix`, computed structurally over character lists. -/
def trimSuffix (s suffix' : String) : String :=
  if strEndsWith s suffix' then
    ⟨s.data.take (s.data.length - suffix'.data.length)⟩
  else s

/-- The `fmt.Sscanf(s, "%d", &value)` step on the digit strings used by the
preset table: parse the leading decimal digits (`0` when there are none,
matching Go's untouched zero value on scan failure). -/
def scanLeadingNat (s : String) : ℕ :=
  (s.toList.takeWhile Char.isDigit).foldl
    (fun acc c => acc * 10 + (c.toNat - 48)) 0

/-- The numeric part shared by `adjustBitrateForCodec` and `parseBitrate`
(builder.go): strip a `k`/`K` suffix and scan the integer. -/
def kValue (bitrate : String) : ℕ :=
  scanLeadingNat (trimSuffix (trimSuffix bitrate "k") "K")

/-- `adjustBitrateForCodec` from builder.go.  The Go code computes
`int(float64(value) * multiplier)` (truncation toward zero); the rational
model uses `Int.floor`, which agrees with truncation on the non-negative
values involved, and the float64 product is exact for every preset value
(all are multiples of 500, and the rounding error of the double nearest to
0.6 stays far below half an ulp of the integer product). -/
def adjustBitrateForCodec (bitrate : String) (codec : VideoCodec) : String :=
  let value := kValue bitrate
  let adjusted : ℤ := ⌊(value : ℚ) * codec.BitrateMultiplier⌋
  toString adjusted ++ "k"

/-- `parseBitrate` from builder.go: the `k`-unit value times 1000. -/
def parseBitrate (bitrate : String) : ℕ :=
  kValue bitrate * 1000

/-- The per-variant video bandwidth of `GenerateMultiCodecMasterPlaylist`
(builder.go line 597): the parsed video bitrate scaled by the tier codec's
multiplier, truncated to int. -/
def multiCodecVideoBandwidth (q : Quality) (codec : VideoCodec) : ℤ :=
  ⌊(parseBitrate (Quality.Params q).videoBitrate : ℚ) * codec.BitrateMultiplier⌋

/-- The per-variant audio bandwidth of `GenerateMultiCodecMasterPlaylist`
(builder.go line 598): the parsed audio bitrate, with no multiplier. -/
def multiCodecAudioBandwidth (q : Quality) : ℕ :=
  parseBitrate (Quality.Params q).audioBitrate

/-! ## Thumbnail interval (GenerateThumbnails, activities.go) -/

/-- The interval computed by `GenerateThumbnails` in activities.go:
`interval := durationSec / maxFrames; if interval < 1 { interval = 1 }`.
The Go float64 division is modelled exactly over `ℚ`. -/
def thumbnailInterval (durationSec : ℚ) (maxFrames : ℕ) : ℚ :=
  let interval := durationSec / (maxFrames : ℚ)
  if interval < 1 then 1 else interval

/-- Modelled from the spec's words for comparison (refinement target):
`interval = duration / min(max_frames, ⌈duration⌉)` with a floor of 1 s. -/
def thumbnailIntervalSpec (durationSec : ℚ) (maxFrames : ℕ) : ℚ :=
  let interval := durationSec / ((min (maxFrames : ℤ) ⌈durationSec⌉ : ℤ) : ℚ)
  if interval < 1 then 1 else interval

/-! ## Error taxonomy (internal/domain/profile.go) -/

inductive ErrorClass where
  | fatal | retryable
  deriving DecidableEq, Repr

/-- `IsRetryable` from profile.go: only `S3_TIMEOUT` and `NETWORK_ERROR` are
retryable. -/
def IsRetryable (code : String) : Bool :=
  code == "S3_TIMEOUT" || code == "NETWORK_ERROR"

/-- `ClassifyError` from profile.go. -/
def ClassifyError (code : String) : ErrorClass :=
  if IsRetryable code then ErrorClass.retryable else ErrorClass.fatal

/-- A recorded `ConversionError` row as produced by `Activities.recordError`
(activities.go): the class is always derived from the code via
`ClassifyError`. -/
structure RecordedError where
  code : String
  cls : ErrorClass
  deriving DecidableEq, Repr

def mkRecordedError (code : String) : RecordedError :=
  ⟨code, ClassifyError code⟩

/-- `recordError` returns a Temporal non-retryable application error exactly
when the class is FATAL (activities.go lines 977-980). -/
def recordErrorNonRetryable (code : String) : Bool :=
  ClassifyError code == ErrorClass.fatal

/-! ## Validation stage (ValidateInputs, activities.go) -/

def SupportedContainers : List String := ["mp4", "mkv", "mov", "webm", "avi"]

def SupportedVideoCodecs : List String :=
  ["h264", "hevc", "h265", "vp8", "vp9", "av1", "mpeg4", "mpeg2video"]

def IsContainerSupported (container : String) : Bool :=
  SupportedContainers.contains container

def IsVideoCodecSupported (codec : String) : Bool :=
  SupportedVideoCodecs.contains codec

/-- `ValidateInputs` from activities.go, as a function of the inputs that
decide its control flow: the metadata's container and video codec, the
outcome of the Statfs call (`none` if Statfs itself errored, in which case
the disk check is skipped), the source file size, and whether the S3 health
probe succeeds.  Returns the recorded error of the first failing check. -/
def ValidateInputs (container videoCodec : String) (statfsFree : Option ℕ)
    (fileSize : ℕ) (s3Healthy : Bool) : Option RecordedError :=
  if !IsContainerSupported container then
    some (mkRecordedError "UNSUPPORTED_FORMAT")
  else if !IsVideoCodecSupported videoCodec then
    some (mkRecordedError "UNSUPPORTED_FORMAT")
  else
    let diskFailed : Bool := match statfsFree with
      | some free => decide (free < fileSize * 5)
      | none => false
    if diskFailed then some (mkRecordedError "INSUFFICIENT_DISK")
    else if !s3Healthy then some (mkRecordedError "S3_ACCESS_DENIED")
    else none

/-! ## Metadata stage download failure (ExtractMetadata, activities.go) -/

/-- The download step of `ExtractMetadata` (activities.go lines 102-106):
any error from `s3Client.Download`, whatever its message, is recorded with
the constant code `S3_NOT_FOUND`. -/
def ExtractMetadataDownload (result : Except String Unit) :
    Except RecordedError Unit :=
  match result with
  | .error _ => .error (mkRecordedError "S3_NOT_FOUND")
  | .ok _ => .ok ()

/-! ## Stages, weights and overall progress (cmd/api/main.go domain part) -/

inductive Stage where
  | metadataExtraction | validation | transcoding | subtitlesExtraction
  | thumbnailsGen | hlsSegmentation | uploading | cleanup
  deriving DecidableEq, Repr

/-- `AllStages` from the domain code: the fixed pipeline order. -/
def AllStages : List Stage :=
  [.metadataExtraction, .validation, .transcoding, .subtitlesExtraction,
   .thumbnailsGen, .hlsSegmentation, .uploading, .cleanup]

/-- `StageWeight` from the domain code. -/
def StageWeight : Stage → ℕ
  | .metadataExtraction => 5
  | .validation => 5
  | .transcoding => 50
  | .subtitlesExtraction => 5
  | .thumbnailsGen => 10
  | .hlsSegmentation => 10
  | .uploading => 10
  | .cleanup => 5

inductive JobStatus where
  | queued | running | completed | failed | canceled
  deriving DecidableEq, Repr

/-- The accumulation loop of `CalculateOverallProgress`: walk the stage list,
summing weights of stages before the current one, and return that sum
together with the current stage's weight (0 if never found). -/
def stageWeightScan : List Stage → Stage → ℕ → ℕ × ℕ
  | [], _, acc => (acc, 0)
  | s :: rest, target, acc =>
    if s = target then (acc, StageWeight s)
    else stageWeightScan rest target (acc + StageWeight s)

/-- `Job.CalculateOverallProgress` from cmd/api/main.go, with Go integer
division on non-negative values modelled by `Nat` division. -/
def CalculateOverallProgress (currentStage : Option Stage)
    (stageProgress : ℕ) : ℕ :=
  match currentStage with
  | none => 0
  | some s =>
    let scan := stageWeightScan AllStages s 0
    let totalWeight := (AllStages.map StageWeight).sum
    (scan.1 + scan.2 * stageProgress / 100) * 100 / totalWeight

/-- The persisted job row fields that C2 is about. -/
structure JobState where
  status : JobStatus
  currentStage : Option Stage
  stageProgress : ℕ
  overallProgress : ℕ
  finishedAt : Bool
  deriving DecidableEq, Repr

/-- `Activities.updateProgress` (activities.go): recompute overall progress
from the stage and stage progress and persist all three fields. -/
def updateProgressA (s : JobState) (stage : Stage) (p : ℕ) : JobState :=
  { s with currentStage := some stage, stageProgress := p,
           overallProgress := CalculateOverallProgress (some stage) p }

/-- `Activities.Cleanup` (activities.go lines 904-926): report cleanup stage
progress 0, remove the workspace, report cleanup stage progress 100, and
always succeed. -/
def CleanupActivity (s : JobState) : JobState :=
  updateProgressA (updateProgressA s .cleanup 0) .cleanup 100

/-- `JobRepository.SetFinished` (job_repository.go): set the status and
`finished_at`; force `overall_progress` to 100 only when the new status is
COMPLETED, otherwise leave it unchanged. -/
def SetFinished (s : JobState) (status : JobStatus) : JobState :=
  { s with status := status, finishedAt := true,
           overallProgress :=
             if status = JobStatus.completed then 100 else s.overallProgress }

/-- `handleCancellation` (conversion.go) followed by the deferred
`FinalizeJob` with status CANCELED: run the Cleanup activity on a
disconnected context, then `SetFinished(CANCELED)`. -/
def handleCancellationRun (s : JobState) : JobState :=
  SetFinished (CleanupActivity s) JobStatus.canceled

/-! ## Artifact typing (internal/metrics/metrics.go, s3 uploader part)

The uploader's keys are plain slash-separated relative paths already cleaned
(`{videoID}/{jobID}/{subdir}/...`), so Go's `filepath` helpers are modelled
on exactly that shape: `Base` is the part after the last `/`, `Dir` is the
part before it (`"."` when there is no `/`), and `Ext` is the suffix of the
base starting at its last dot (empty when the base has no dot). -/

inductive ArtifactType where
  | hlsMaster | hlsVariant | segment | subtitle | thumbTile | thumbVTT
  | metadataJSON
  deriving DecidableEq, Repr

/-- Split a character list at a separator (structural counterpart of
`strings.Split`). -/
def splitChar (sep : Char) : List Char → List (List Char)
  | [] => [[]]
  | c :: rest =>
    let r := splitChar sep rest
    if c = sep then [] :: r
    else
      match r with
      | [] => [[c]]
      | h :: t => (c :: h) :: t

/-- Join character-list parts with a separator (structural counterpart of
`strings.Join`). -/
def joinChar (sep : Char) : List (List Char) → List Char
  | [] => []
  | [x] => x
  | x :: xs => x ++ sep :: joinChar sep xs

/-- Go `filepath.Base` on a cleaned relative path. -/
def goBase (p : String) : String :=
  ⟨(splitChar '/' p.data).getLastD []⟩

/-- Go `filepath.Dir` on a cleaned relative path. -/
def goDir (p : String) : String :=
  let parts := splitChar '/' p.data
  if parts.length ≤ 1 then "." else ⟨joinChar '/' parts.dropLast⟩

/-- Go `filepath.Ext` on a cleaned relative path. -/
def goExt (p : String) : String :=
  let rev := (goBase p).data.reverse
  if rev.contains '.' then
    ⟨'.' :: (rev.takeWhile (fun c => c ≠ '.')).reverse⟩
  else ""

/-- `determineArtifactType` from the s3 directory uploader: classify an
uploaded key by base name, extension and containing directory. -/
def determineArtifactType (key : String) : ArtifactType :=
  let ext := goExt key
  let base := goBase key
  if base = "master.m3u8" then .hlsMaster
  else if ext = ".m3u8" then .hlsVariant
  else if ext = ".ts" then .segment
  else if ext = ".vtt" && goDir key = "thumbs" then .thumbVTT
  else if ext = ".vtt" then .subtitle
  else if ext = ".jpg" || ext = ".png" then .thumbTile
  else if ext = ".json" then .metadataJSON
  else .segment

/-- The key built by `UploadDirectory` for a file at relative path `relPath`
under the stage prefix: `filepath.Join(prefix, relPath)` on cleaned parts. -/
def uploadKey (pfx relPath : String) : String :=
  pfx ++ "/" ++ relPath

/-- The upload-stage prefix for a stage subdirectory (UploadArtifacts,
activities.go): `{videoID}/{jobID}/{subdir}`. -/
def uploadStagePrefix (videoID jobID subdir : String) : String :=
  videoID ++ "/" ++ jobID ++ "/" ++ subdir

/-! ## S3 multipart upload plan (s3 client, src/unnamed/part_005) -/

def MinPartSize : ℕ := 5 * 1024 * 1024

def DefaultPartSize : ℕ := 50 * 1024 * 1024

/-- `Upload` picks the single-shot path exactly when `size < MinPartSize`. -/
def uploadUsesSinglePut (size : ℕ) : Bool :=
  size < MinPartSize

/-- The part count computed by `uploadMultipart`:
`partCount := (size + partSize - 1) / partSize` with the default 50 MiB part
size.  Crucially, the code never recomputes this after re-chunking. -/
def uploadPartCount (size : ℕ) : ℕ :=
  (size + DefaultPartSize - 1) / DefaultPartSize

/-- The part size after the re-chunk check in `uploadMultipart`:
`if partCount > 10000 { partSize = (size + 9999) / 10000 }`. -/
def uploadFinalPartSize (size : ℕ) : ℕ :=
  if uploadPartCount size > 10000 then (size + 9999) / 10000
  else DefaultPartSize

/-- The size of the buffer allocated for part number `partNum` (1-based) in
the upload loop: `offset := (partNum-1) * partSize; remaining := size -
offset; if remaining < partSize { currentPartSize = remaining }`.  Over `ℤ`
because `remaining` goes negative when the loop overruns the file. -/
def uploadPartBufferSize (size partSize partNum : ℕ) : ℤ :=
  let offset : ℤ := ((partNum : ℤ) - 1) * (partSize : ℤ)
  let remaining : ℤ := (size : ℤ) - offset
  if remaining < (partSize : ℤ) then remaining else (partSize : ℤ)

/-- The retry schedule for one part: `for retry := 0; retry < maxRetries;
retry++` with `time.Sleep((retry+1) seconds)` after a failure, and
`maxRetries = 3`; a part that fails all attempts aborts the whole upload.
The attempt count and the backoff delays are captured as data. -/
def uploadPartMaxAttempts : ℕ := 3

def uploadPartBackoffSeconds : List ℕ :=
  (List.range uploadPartMaxAttempts).map (· + 1)

/-! ## Optimistic locking (JobRepository.Update, job_repository.go) -/

/-- The columns rewritten by the `UPDATE ... SET` list other than
`lock_version` (statuses, progress, bookkeeping), abstracted as one
record value; the SQL overwrites all of them from the snapshot. -/
structure JobRowFields where
  status : JobStatus
  currentStage : Option Stage
  stageProgress : ℕ
  overallProgress : ℕ
  attempt : ℕ
  deriving DecidableEq, Repr

/-- A stored `conversion_jobs` row: updatable fields plus `lock_version`. -/
structure JobRow where
  fields : JobRowFields
  lockVersion : ℕ
  deriving DecidableEq, Repr

inductive UpdateResult where
  | ok | concurrentModification
  deriving DecidableEq, Repr

/-- `JobRepository.Update`: `UPDATE ... SET ..., lock_version = lock_version
+ 1 WHERE id = ? AND lock_version = ?` — the row changes only when the stored
`lock_version` equals the snapshot's; zero affected rows yield
`ErrConcurrentModification`.  Returns the new stored row and the outcome. -/
def RepoUpdate (stored snapshot : JobRow) : JobRow × UpdateResult :=
  if stored.lockVersion = snapshot.lockVersion then
    (⟨snapshot.fields, stored.lockVersion + 1⟩, .ok)
  else
    (stored, .concurrentModification)

/-! ## HLS segmentation stage outputs (SegmentHLS, activities.go)

The non-DRM paths of the stage are embedded by their effect on the returned
`HLSOutput` value and on the set of playlist/manifest files the stage
writes, assuming every segmenter subprocess succeeds (the claim is about the
success path). -/

/-- `HLSInput` from activities.go (maps are modelled as association lists;
the claims proved here do not depend on iteration order). -/
structure HLSInput where
  outputPaths : List (Quality × String)
  tierOutputPaths : List (EncodingTier × List (Quality × String))
  enabledTiers : List EncodingTier
  deriving DecidableEq, Repr

/-- `HLSOutput` from activities.go. -/
structure HLSOutput where
  masterPlaylistPath : String
  mpdPath : String
  hlsDir : String
  encrypted : Bool
  drmEnabled : Bool
  keyPath : String
  multiCodec : Bool
  enabledTiers : List EncodingTier
  deriving DecidableEq, Repr

/-- The multi-tier dispatch condition in `segmentHLSWithFFmpeg`:
`len(input.TierOutputPaths) > 0 && len(input.EnabledTiers) > 0`. -/
def isMultiTier (input : HLSInput) : Bool :=
  !input.tierOutputPaths.isEmpty && !input.enabledTiers.isEmpty

/-- The `HLSOutput` built by `segmentHLSMultiTier` on success (activities.go
lines 788-797): master playlist at `hlsDir/master.m3u8`, `MPDPath` never
assigned (it stays the empty string), `MultiCodec` true. -/
def segmentHLSMultiTierOutput (input : HLSInput) (hlsDir : String)
    (encrypted : Bool) (keyPath : String) : HLSOutput :=
  { masterPlaylistPath := hlsDir ++ "/master.m3u8"
    mpdPath := ""
    hlsDir := hlsDir
    encrypted := encrypted
    drmEnabled := false
    keyPath := if encrypted then keyPath else ""
    multiCodec := true
    enabledTiers := input.enabledTiers }

/-- The `HLSOutput` built by the legacy single-tier branch of
`segmentHLSWithFFmpeg` on success (activities.go lines 679-687). -/
def segmentHLSSingleTierOutput (hlsDir : String) (encrypted : Bool)
    (keyPath : String) : HLSOutput :=
  { masterPlaylistPath := hlsDir ++ "/master.m3u8"
    mpdPath := ""
    hlsDir := hlsDir
    encrypted := encrypted
    drmEnabled := false
    keyPath := if encrypted then keyPath else ""
    multiCodec := false
    enabledTiers := [] }

/-- `segmentHLSWithFFmpeg` on success: dispatch on `isMultiTier`. -/
def segmentHLSWithFFmpegOutput (input : HLSInput) (hlsDir : String)
    (encrypted : Bool) (keyPath : String) : HLSOutput :=
  if isMultiTier input then segmentHLSMultiTierOutput input hlsDir encrypted keyPath
  else segmentHLSSingleTierOutput hlsDir encrypted keyPath

/-- The playlist/manifest files written by `segmentHLSMultiTier` on success:
one variant playlist per (enabled tier, transcoded quality) — the segmenter
command's `OutputPath` is `hlsDir/{tier}/{quality}.m3u8` — plus the master
playlist `hlsDir/master.m3u8`.  No `.mpd` file is ever written:
`GenerateDASHManifest` (internal/ffmpeg/dash.go) has no caller. -/
def tierName : EncodingTier → String
  | .legacy => "legacy"
  | .modern => "modern"

def qualityName : Quality → String
  | .q480p => "480p"
  | .q576p => "576p"
  | .q720p => "720p"
  | .q1080p => "1080p"
  | .q1440p => "1440p"
  | .q2160p => "2160p"
  | .origin => "origin"

def segmentHLSMultiTierWrites (input : HLSInput) (hlsDir : String) :
    List String :=
  (input.enabledTiers.flatMap (fun tier =>
    match input.tierOutputPaths.lookup tier with
    | some tierPaths =>
        tierPaths.map (fun qp =>
          hlsDir ++ "/" ++ tierName tier ++ "/" ++ qualityName qp.1 ++ ".m3u8")
    | none => []))
  ++ [hlsDir ++ "/master.m3u8"]

/-! # Theorems -/

/-! ## Theorems for C3 -/

/-- C3: for every non-empty requested quality list and source height `h`, the
transcode quality filter keeps only `origin` and named qualities whose preset
height is at most `h` (so nothing is upscaled), keeps `origin` whenever it was
requested, always returns a non-empty list, and falls back to `[origin]` alone
when every requested quality was dropped. -/
theorem filter_qualities_no_upscale (qs : List Quality) (h : ℤ)
    (hne : qs ≠ []) :
    (∀ q ∈ FilterQualitiesForResolution qs h,
        q = Quality.origin ∨ (Quality.Params q).height ≤ h) ∧
    FilterQualitiesForResolution qs h ≠ [] ∧
    (Quality.origin ∈ qs → Quality.origin ∈ FilterQualitiesForResolution qs h) ∧
    ((∀ q ∈ qs, keepQuality h q = false) →
        FilterQualitiesForResolution qs h = [Quality.origin]) := by
  unfold FilterQualitiesForResolution
  refine ⟨?_, ?_, ?_, ?_⟩
  · intro q hq
    by_cases hf : (qs.filter (keepQuality h)).isEmpty && !qs.isEmpty
    · rw [if_pos hf] at hq
      simp only [List.mem_singleton] at hq
      exact Or.inl hq
    · rw [if_neg hf] at hq
      have := (List.mem_filter.mp hq).2
      unfold keepQuality at this
      simp only [Bool.or_eq_true, beq_iff_eq, decide_eq_true_eq] at this
      rcases this with h1 | h2
      · exact Or.inl h1
      · exact Or.inr h2
  · by_cases hf : (qs.filter (keepQuality h)).isEmpty && !qs.isEmpty
    · rw [if_pos hf]; simp
    · rw [if_neg hf]
      intro hcontra
      apply hf
      simp only [Bool.and_eq_true, Bool.not_eq_eq_eq_not, Bool.not_true,
        List.isEmpty_eq_true] at *
      exact ⟨by simpa using hcontra, by simpa using hne⟩
  · intro ho
    have hmem : Quality.origin ∈ qs.filter (keepQuality h) := by
      refine List.mem_filter.mpr ⟨ho, ?_⟩
      unfold keepQuality
      simp
    by_cases hf : (qs.filter (keepQuality h)).isEmpty && !qs.isEmpty
    · rw [if_pos hf]; simp
    · rw [if_neg hf]; exact hmem
  · intro hall
    have hempty : qs.filter (keepQuality h) = [] := by
      apply List.filter_eq_nil_iff.mpr
      intro q hq
      simp [hall q hq]
    rw [if_pos]
    simp only [Bool.and_eq_true, List.isEmpty_eq_true, Bool.not_eq_eq_eq_not,
      Bool.not_true]
    exact ⟨hempty, by simpa using hne⟩

/-- Witness for C3 at a concrete input: source height 360, request
`[720p, 1080p]`; everything is dropped and the result is `[origin]`. -/
theorem filter_qualities_no_upscale_witness :
    ([Quality.q720p, Quality.q1080p] ≠ ([] : List Quality)) ∧
    ((∀ q ∈ FilterQualitiesForResolution [Quality.q720p, Quality.q1080p] 360,
        q = Quality.origin ∨ (Quality.Params q).height ≤ 360) ∧
      FilterQualitiesForResolution [Quality.q720p, Quality.q1080p] 360 ≠ [] ∧
      (Quality.origin ∈ [Quality.q720p, Quality.q1080p] →
        Quality.origin ∈
          FilterQualitiesForResolution [Quality.q720p, Quality.q1080p] 360) ∧
      ((∀ q ∈ [Quality.q720p, Quality.q1080p], keepQuality 360 q = false) →
        FilterQualitiesForResolution [Quality.q720p, Quality.q1080p] 360 =
          [Quality.origin])) := by
  refine ⟨by decide, ?_⟩
  exact filter_qualities_no_upscale [Quality.q720p, Quality.q1080p] 360
    (by decide)

/-! ## Theorems for C9 -/

/-- C9: for every source duration `d > 0` and effective `max_frames ≥ 1`, the
interval computed by the thumbnails stage (`max 1 (d / m)` in the code) equals
the spec's `d / min(max_frames, ⌈d⌉)` with a floor of 1 second. -/
theorem thumbnail_interval_matches_spec (d : ℚ) (m : ℕ)
    (hd : 0 < d) (hm : 1 ≤ m) :
    thumbnailInterval d m = thumbnailIntervalSpec d m := by
  unfold thumbnailInterval thumbnailIntervalSpec
  by_cases hcmp : (m : ℤ) ≤ ⌈d⌉
  · rw [min_eq_left hcmp]
    norm_num
  · push_neg at hcmp
    rw [min_eq_right hcmp.le]
    have hceil_pos : (0 : ℤ) < ⌈d⌉ := Int.ceil_pos.mpr hd
    have hceil_posQ : (0 : ℚ) < ((⌈d⌉ : ℤ) : ℚ) := by exact_mod_cast hceil_pos
    have hmQ : (0 : ℚ) < (m : ℚ) := by
      have : (0 : ℕ) < m := hm
      exact_mod_cast this
    have h1 : d / ((⌈d⌉ : ℤ) : ℚ) ≤ 1 := by
      rw [div_le_one hceil_posQ]
      exact_mod_cast Int.le_ceil d
    have h2 : d / (m : ℚ) < 1 := by
      rw [div_lt_one hmQ]
      calc d ≤ ((⌈d⌉ : ℤ) : ℚ) := by exact_mod_cast Int.le_ceil d
        _ < (m : ℚ) := by exact_mod_cast hcmp
    rw [if_pos h2]
    by_cases h3 : d / ((⌈d⌉ : ℤ) : ℚ) < 1
    · rw [if_pos h3]
    · rw [if_neg h3]
      push_neg at h3
      linarith

/-- Witness for C9 at a concrete input: duration 10 s, max_frames 200; the
code and the spec formula both give interval 1. -/
theorem thumbnail_interval_matches_spec_witness :
    (0 : ℚ) < 10 ∧ 1 ≤ 200 ∧
      thumbnailInterval 10 200 = thumbnailIntervalSpec 10 200 :=
  ⟨by norm_num, by norm_num,
    thumbnail_interval_matches_spec 10 200 (by norm_num) (by norm_num)⟩

/-! ## Theorems for C2 -/

/-- Counterexample for C2: a job canceled mid-transcode runs the cleanup
activity (which reports cleanup progress 100) and then `SetFinished(CANCELED)`,
ending with `overall_progress = 100` despite `status = CANCELED` — so
`overall_progress = 100` does not imply `status = COMPLETED`. -/
theorem canceled_job_ends_with_progress_100 :
    (handleCancellationRun
        ⟨JobStatus.running, some Stage.transcoding, 40, 25, false⟩).status =
      JobStatus.canceled ∧
    (handleCancellationRun
        ⟨JobStatus.running, some Stage.transcoding, 40, 25, false⟩).overallProgress
      = 100 ∧
    JobStatus.canceled ≠ JobStatus.completed := by
  decide

/-- C2 (amended): `SetFinished` forces `overall_progress = 100` when the
terminal status is COMPLETED, but the converse direction of the claimed
invariant fails: from any prior state, the cancellation path (cleanup, whose
final write drives overall progress to 100, then `SetFinished(CANCELED)`)
ends with `status = CANCELED` and `overall_progress = 100`. -/
theorem overall_progress_100_not_only_completed :
    (∀ s : JobState, (SetFinished s JobStatus.completed).overallProgress = 100) ∧
    (∀ s : JobState,
      (handleCancellationRun s).status = JobStatus.canceled ∧
      (handleCancellationRun s).overallProgress = 100) := by
  constructor
  · intro s
    simp [SetFinished]
  · intro s
    constructor
    · rfl
    · rfl

/-! ## Theorems for C4 -/

/-- Counterexample for C4: with a supported source, ample disk, and a failing
S3 health probe, the validation stage records `S3_ACCESS_DENIED`, and
`ClassifyError` classifies that code FATAL, not RETRYABLE, so `recordError`
returns a non-retryable error. -/
theorem s3_probe_failure_is_fatal_counterexample :
    ValidateInputs "mp4" "h264" (some 1000000000000) 1000000 false =
      some ⟨"S3_ACCESS_DENIED", ErrorClass.fatal⟩ ∧
    ClassifyError "S3_ACCESS_DENIED" ≠ ErrorClass.retryable := by
  constructor
  · rfl
  · decide

/-- C4 (amended): when the validation stage's S3 reachability probe fails (and
the earlier checks pass), the stage records a ConversionError with code
`S3_ACCESS_DENIED` classified FATAL, and returns a non-retryable error that
short-circuits the retry policy. -/
theorem s3_probe_failure_recorded_fatal (container codec : String)
    (free size : ℕ)
    (hc : IsContainerSupported container = true)
    (hv : IsVideoCodecSupported codec = true)
    (hd : ¬ free < size * 5) :
    ValidateInputs container codec (some free) size false =
      some ⟨"S3_ACCESS_DENIED", ErrorClass.fatal⟩ ∧
    recordErrorNonRetryable "S3_ACCESS_DENIED" = true := by
  constructor
  · unfold ValidateInputs
    rw [hc, hv]
    simp [hd, mkRecordedError, ClassifyError, IsRetryable]
  · decide

/-- Witness for C4's amended theorem at a concrete input: container `mp4`,
codec `h264`, 1 TiB free for a 1 MB file, S3 probe failing. -/
theorem s3_probe_failure_recorded_fatal_witness :
    IsContainerSupported "mp4" = true ∧
    IsVideoCodecSupported "h264" = true ∧
    ¬ (1099511627776 : ℕ) < 1000000 * 5 ∧
    (ValidateInputs "mp4" "h264" (some 1099511627776) 1000000 false =
        some ⟨"S3_ACCESS_DENIED", ErrorClass.fatal⟩ ∧
      recordErrorNonRetryable "S3_ACCESS_DENIED" = true) :=
  ⟨by decide, by decide, by decide,
    s3_probe_failure_recorded_fatal "mp4" "h264" 1099511627776 1000000
      (by decide) (by decide) (by decide)⟩

/-! ## Theorems for C10 -/

/-- C10: every failure of the source download in the metadata-extraction
stage — whatever its message, including timeouts and transient network
errors — is recorded as a ConversionError with the constant code
`S3_NOT_FOUND`, which is classified FATAL and returned non-retryably; in
particular the recorded code is never `S3_TIMEOUT`, so transient download
failures are not retried. -/
theorem metadata_download_failure_always_fatal_not_found (msg : String) :
    ExtractMetadataDownload (.error msg) =
      .error ⟨"S3_NOT_FOUND", ErrorClass.fatal⟩ ∧
    (mkRecordedError "S3_NOT_FOUND").code ≠ "S3_TIMEOUT" ∧
    recordErrorNonRetryable "S3_NOT_FOUND" = true := by
  refine ⟨rfl, by decide, by decide⟩

/-! ## Theorems for C6 -/

/-- For multiples of 5, scaling by 3/5 lands on an integer, so floor (the
code's truncation) and ceiling (the spec's formula) coincide. -/
theorem floor_eq_ceil_mul_three_fifths (n : ℕ) (h : 5 ∣ n) :
    ⌊(n : ℚ) * (3 / 5)⌋ = ⌈(n : ℚ) * (3 / 5)⌉ := by
  obtain ⟨k, rfl⟩ := h
  have heq : ((5 * k : ℕ) : ℚ) * (3 / 5) = ((3 * k : ℕ) : ℚ) := by
    push_cast
    ring
  rw [heq, Int.floor_natCast, Int.ceil_natCast]

/-- On a `k`-unit bitrate whose value is a multiple of 5, the code's
truncating H.265 scaling agrees with the ceiling formula. -/
theorem adjust_bitrate_eq_ceil (s : String) (h : 5 ∣ kValue s) :
    adjustBitrateForCodec s VideoCodec.h265 =
      toString (⌈(kValue s : ℚ) * (3 / 5)⌉ : ℤ) ++ "k" := by
  show toString (⌊(kValue s : ℚ) * (3 / 5)⌋ : ℤ) ++ "k" = _
  rw [floor_eq_ceil_mul_three_fifths _ h]

/-- C6: for every named quality preset, the H.265 (modern tier, multiplier
0.6) scaled video bitrate, max bitrate and bufsize emitted by
`adjustBitrateForCodec` each equal the ceiling of the base value times 0.6
in `k` units (every preset value is a multiple of 500, so the product is an
integer and the code's truncation coincides with the ceiling), and the
multi-codec playlist's audio bandwidth is the parsed preset audio bitrate
with no multiplier applied. -/
theorem modern_tier_bitrates_scaled_ceil (q : Quality)
    (hq : q ≠ Quality.origin) :
    adjustBitrateForCodec (Quality.Params q).videoBitrate VideoCodec.h265 =
      toString (⌈(kValue (Quality.Params q).videoBitrate : ℚ) * (3 / 5)⌉ : ℤ)
        ++ "k" ∧
    adjustBitrateForCodec (Quality.Params q).maxBitrate VideoCodec.h265 =
      toString (⌈(kValue (Quality.Params q).maxBitrate : ℚ) * (3 / 5)⌉ : ℤ)
        ++ "k" ∧
    adjustBitrateForCodec (Quality.Params q).bufSize VideoCodec.h265 =
      toString (⌈(kValue (Quality.Params q).bufSize : ℚ) * (3 / 5)⌉ : ℤ)
        ++ "k" ∧
    multiCodecAudioBandwidth q = parseBitrate (Quality.Params q).audioBitrate := by
  cases q <;> first
    | exact absurd rfl hq
    | exact ⟨adjust_bitrate_eq_ceil _ (by decide),
        adjust_bitrate_eq_ceil _ (by decide),
        adjust_bitrate_eq_ceil _ (by decide), rfl⟩

/-- Witness for C6 at 720p: the scaled triple is
`("1800k", "2400k", "3600k")` and the audio bandwidth stays 192000. -/
theorem modern_tier_bitrates_scaled_ceil_witness :
    Quality.q720p ≠ Quality.origin ∧
    (adjustBitrateForCodec (Quality.Params .q720p).videoBitrate VideoCodec.h265 =
        toString (⌈(kValue (Quality.Params .q720p).videoBitrate : ℚ) * (3 / 5)⌉ : ℤ)
          ++ "k" ∧
      adjustBitrateForCodec (Quality.Params .q720p).maxBitrate VideoCodec.h265 =
        toString (⌈(kValue (Quality.Params .q720p).maxBitrate : ℚ) * (3 / 5)⌉ : ℤ)
          ++ "k" ∧
      adjustBitrateForCodec (Quality.Params .q720p).bufSize VideoCodec.h265 =
        toString (⌈(kValue (Quality.Params .q720p).bufSize : ℚ) * (3 / 5)⌉ : ℤ)
          ++ "k" ∧
      multiCodecAudioBandwidth .q720p =
        parseBitrate (Quality.Params .q720p).audioBitrate) :=
  ⟨by decide, modern_tier_bitrates_scaled_ceil .q720p (by decide)⟩

/-! ## Theorems for C7 -/

/-- C7 (code evaluated at the failing input): a thumbnail VTT uploaded under
the real key prefix `{videoID}/{jobID}/thumbs/` is classified SUBTITLE, not
THUMB_VTT, because `determineArtifactType` compares `filepath.Dir(key)` — here
`vid-1/job-1/thumbs` — with the bare string `"thumbs"`; the remaining claimed
mappings (master, variant, TS segment, plain subtitle, image tile, JSON) do
hold on their keys. -/
theorem thumbs_vtt_classified_subtitle :
    determineArtifactType
        (uploadKey (uploadStagePrefix "vid-1" "job-1" "thumbs") "thumbnails.vtt")
      = ArtifactType.subtitle ∧
    ArtifactType.subtitle ≠ ArtifactType.thumbVTT ∧
    goDir (uploadKey (uploadStagePrefix "vid-1" "job-1" "thumbs") "thumbnails.vtt")
      = "vid-1/job-1/thumbs" ∧
    determineArtifactType
        (uploadKey (uploadStagePrefix "vid-1" "job-1" "hls") "master.m3u8")
      = ArtifactType.hlsMaster ∧
    determineArtifactType
        (uploadKey (uploadStagePrefix "vid-1" "job-1" "hls") "720p.m3u8")
      = ArtifactType.hlsVariant ∧
    determineArtifactType
        (uploadKey (uploadStagePrefix "vid-1" "job-1" "hls") "720p_00001.ts")
      = ArtifactType.segment ∧
    determineArtifactType
        (uploadKey (uploadStagePrefix "vid-1" "job-1" "subtitles") "eng.vtt")
      = ArtifactType.subtitle ∧
    determineArtifactType
        (uploadKey (uploadStagePrefix "vid-1" "job-1" "thumbs") "tile_0.jpg")
      = ArtifactType.thumbTile ∧
    determineArtifactType
        (uploadKey (uploadStagePrefix "vid-1" "job-1" "meta") "metadata.json")
      = ArtifactType.metadataJSON := by
  decide

/-! ## Theorems for C5 -/

/-- C5 (code evaluated at the failing input): for a file of
524 288 000 001 bytes (50 MiB × 10 000 + 1), the multipart path is chosen and
the 50 MiB plan gives 10 001 parts, so the part size is re-chunked to
52 428 801 bytes — but the loop still runs to the stale count 10 001, which
exceeds the 10 000-part cap, and part number 10 001 computes a negative
buffer size (−9999), on which Go's `make([]byte, …)` panics; the parts
therefore do not exactly cover the file. -/
theorem multipart_stale_part_count_bug :
    uploadUsesSinglePut 524288000001 = false ∧
    uploadPartCount 524288000001 = 10001 ∧
    10000 < uploadPartCount 524288000001 ∧
    uploadFinalPartSize 524288000001 = 52428801 ∧
    uploadPartBufferSize 524288000001 (uploadFinalPartSize 524288000001) 10001
      = -9999 ∧
    uploadPartBufferSize 524288000001 (uploadFinalPartSize 524288000001) 10001
      < 0 ∧
    uploadPartMaxAttempts = 3 ∧
    uploadPartBackoffSeconds = [1, 2, 3] := by
  refine ⟨by decide, by decide, by decide, by decide, ?_, ?_, by decide, by decide⟩
  · decide
  · decide

/-! ## Theorems for C8 -/

/-- C8: an `Update` whose snapshot carries the stored `lock_version v`
succeeds, overwrites the row and bumps the stored version to exactly `v + 1`;
an `Update` whose snapshot version differs changes nothing and returns
CONCURRENT_MODIFICATION; hence of two updates racing from the same snapshot,
the one serialized first succeeds and the second gets
CONCURRENT_MODIFICATION. -/
theorem optimistic_lock_update (stored snap1 snap2 : JobRow)
    (h1 : snap1.lockVersion = stored.lockVersion)
    (h2 : snap2.lockVersion = stored.lockVersion) :
    ((RepoUpdate stored snap1).2 = UpdateResult.ok ∧
      (RepoUpdate stored snap1).1.lockVersion = stored.lockVersion + 1 ∧
      (RepoUpdate stored snap1).1.fields = snap1.fields) ∧
    (∀ snap : JobRow, snap.lockVersion ≠ stored.lockVersion →
      RepoUpdate stored snap = (stored, UpdateResult.concurrentModification)) ∧
    (RepoUpdate (RepoUpdate stored snap1).1 snap2).2 =
      UpdateResult.concurrentModification := by
  have hfirst : RepoUpdate stored snap1 =
      (⟨snap1.fields, stored.lockVersion + 1⟩, UpdateResult.ok) := by
    unfold RepoUpdate
    rw [if_pos h1.symm]
  refine ⟨?_, ?_, ?_⟩
  · rw [hfirst]
    exact ⟨rfl, rfl, rfl⟩
  · intro snap hsnap
    unfold RepoUpdate
    rw [if_neg (fun hc => hsnap hc.symm)]
  · rw [hfirst]
    unfold RepoUpdate
    rw [if_neg]
    simp only [h2]
    exact fun hc => Nat.succ_ne_self stored.lockVersion hc

/-- Witness for C8 at concrete rows: a stored row at version 3 and two
snapshots taken at version 3; the first update succeeds and bumps to 4, the
second returns CONCURRENT_MODIFICATION. -/
theorem optimistic_lock_update_witness :
    (JobRow.mk ⟨JobStatus.running, some Stage.uploading, 50, 80, 1⟩ 3).lockVersion
        = (JobRow.mk ⟨JobStatus.running, some Stage.transcoding, 10, 20, 0⟩ 3).lockVersion ∧
    ((RepoUpdate (JobRow.mk ⟨JobStatus.running, some Stage.transcoding, 10, 20, 0⟩ 3)
          (JobRow.mk ⟨JobStatus.running, some Stage.uploading, 50, 80, 1⟩ 3)).2
        = UpdateResult.ok ∧
      (RepoUpdate (JobRow.mk ⟨JobStatus.running, some Stage.transcoding, 10, 20, 0⟩ 3)
          (JobRow.mk ⟨JobStatus.running, some Stage.uploading, 50, 80, 1⟩ 3)).1.lockVersion
        = (JobRow.mk ⟨JobStatus.running, some Stage.transcoding, 10, 20, 0⟩ 3).lockVersion + 1 ∧
      (RepoUpdate (JobRow.mk ⟨JobStatus.running, some Stage.transcoding, 10, 20, 0⟩ 3)
          (JobRow.mk ⟨JobStatus.running, some Stage.uploading, 50, 80, 1⟩ 3)).1.fields
        = (JobRow.mk ⟨JobStatus.running, some Stage.uploading, 50, 80, 1⟩ 3).fields) ∧
    (∀ snap : JobRow,
      snap.lockVersion ≠ (JobRow.mk ⟨JobStatus.running, some Stage.transcoding, 10, 20, 0⟩ 3).lockVersion →
      RepoUpdate (JobRow.mk ⟨JobStatus.running, some Stage.transcoding, 10, 20, 0⟩ 3) snap
        = ((JobRow.mk ⟨JobStatus.running, some Stage.transcoding, 10, 20, 0⟩ 3),
            UpdateResult.concurrentModification)) ∧
    (RepoUpdate
        (RepoUpdate (JobRow.mk ⟨JobStatus.running, some Stage.transcoding, 10, 20, 0⟩ 3)
          (JobRow.mk ⟨JobStatus.running, some Stage.uploading, 50, 80, 1⟩ 3)).1
        (JobRow.mk ⟨JobStatus.canceled, none, 0, 0, 2⟩ 3)).2
      = UpdateResult.concurrentModification :=
  ⟨rfl,
    optimistic_lock_update
      (JobRow.mk ⟨JobStatus.running, some Stage.transcoding, 10, 20, 0⟩ 3)
      (JobRow.mk ⟨JobStatus.running, some Stage.uploading, 50, 80, 1⟩ 3)
      (JobRow.mk ⟨JobStatus.canceled, none, 0, 0, 2⟩ 3) rfl rfl⟩

/-! ## Theorems for C1 -/

/-- Counterexample for C1: a job with both tiers enabled (the modern tier
uses the fMP4 container) goes through the multi-tier non-DRM segmentation
path, yet the returned `HLSOutput` has an empty MPD path and every file the
stage writes is an `.m3u8` playlist — no DASH MPD is written. -/
theorem multitier_segmentation_no_mpd_counterexample :
    (GetTierConfig EncodingTier.modern).container = ContainerFormat.fmp4 ∧
    EncodingTier.modern ∈
      (HLSInput.mk []
        [(EncodingTier.legacy, [(Quality.q720p, "/w/transcoded/legacy/720p.mp4")]),
         (EncodingTier.modern, [(Quality.q720p, "/w/transcoded/modern/720p.mp4")])]
        [EncodingTier.legacy, EncodingTier.modern]).enabledTiers ∧
    isMultiTier
      (HLSInput.mk []
        [(EncodingTier.legacy, [(Quality.q720p, "/w/transcoded/legacy/720p.mp4")]),
         (EncodingTier.modern, [(Quality.q720p, "/w/transcoded/modern/720p.mp4")])]
        [EncodingTier.legacy, EncodingTier.modern]) = true ∧
    (segmentHLSWithFFmpegOutput
      (HLSInput.mk []
        [(EncodingTier.legacy, [(Quality.q720p, "/w/transcoded/legacy/720p.mp4")]),
         (EncodingTier.modern, [(Quality.q720p, "/w/transcoded/modern/720p.mp4")])]
        [EncodingTier.legacy, EncodingTier.modern]) "/w/hls" false "").mpdPath
      = "" ∧
    (∀ f ∈ segmentHLSMultiTierWrites
      (HLSInput.mk []
        [(EncodingTier.legacy, [(Quality.q720p, "/w/transcoded/legacy/720p.mp4")]),
         (EncodingTier.modern, [(Quality.q720p, "/w/transcoded/modern/720p.mp4")])]
        [EncodingTier.legacy, EncodingTier.modern]) "/w/hls",
      strEndsWith f ".mpd" = false) := by
  decide

/-- C1 (amended): whatever the enabled tiers (in particular when the fMP4
modern tier is present), the non-DRM HLS segmentation stage writes only the
master playlist besides the variant playlists, and the returned `HLSOutput`
always carries an empty MPD path — a DASH MPD is produced only by the DRM
packaging path. -/
theorem multitier_segmentation_mpd_always_empty (input : HLSInput)
    (hlsDir keyPath : String) (encrypted : Bool) :
    (segmentHLSWithFFmpegOutput input hlsDir encrypted keyPath).mpdPath = "" ∧
    (segmentHLSWithFFmpegOutput input hlsDir encrypted keyPath).masterPlaylistPath
      = hlsDir ++ "/master.m3u8" := by
  unfold segmentHLSWithFFmpegOutput
  by_cases hm : isMultiTier input
  · rw [if_pos hm]
    exact ⟨rfl, rfl⟩
  · rw [if_neg hm]
    exact ⟨rfl, rfl⟩

end Converter
